import Mathlib

/-!
Verification of the recommendation server in
`src/recommendationservice/recommendation_server_svd.py`, shallowly embedded
in Lean 4.  Machine integers are modelled as `Nat` reduced mod `2^32` where
the source's 32-bit arithmetic matters (inside SHA-1); Python's unbounded
`int` is `Nat` directly.
-/

/-! ## SHA-1 (the `hashlib.sha1` call in `ListRecommendations`)

The server computes `int(hashlib.sha1(token.encode("utf-8")).hexdigest(), 16)`.
We embed SHA-1 (FIPS 180-4) over byte lists, with all words kept in `[0, 2^32)`.
-/

/-- Truncate to a 32-bit word. -/
def w32 (x : Nat) : Nat := x % 4294967296

/-- Rotate a 32-bit word left by `n` bits. -/
def rotl (n x : Nat) : Nat := w32 ((x <<< n) ||| (x >>> (32 - n)))

/-- Big-endian byte decomposition of `val` into `len` bytes. -/
def toBytesBE (len val : Nat) : List Nat :=
  (List.range len).map (fun i => (val >>> (8 * (len - 1 - i))) % 256)

/-- SHA-1 padding: append `0x80`, zero bytes, and the 64-bit big-endian bit
length so the total length is a multiple of 64 bytes. -/
def sha1Pad (msg : List Nat) : List Nat :=
  let l := msg.length
  let k := (56 + 64 - (l + 1) % 64) % 64
  msg ++ [128] ++ List.replicate k 0 ++ toBytesBE 8 (8 * l)

/-- Split a byte list into 64-byte chunks (structural recursion on a fuel
bound; each step consumes at least one byte, so `bs.length` fuel suffices). -/
def chunks64Aux : Nat → List Nat → List (List Nat)
  | 0, _ => []
  | _, [] => []
  | fuel + 1, bs => bs.take 64 :: chunks64Aux fuel (bs.drop 64)

/-- Split a byte list into 64-byte chunks. -/
def chunks64 (bs : List Nat) : List (List Nat) :=
  chunks64Aux bs.length bs

/-- Combine bytes into big-endian 32-bit words. -/
def bytesToWords : List Nat → List Nat
  | b0 :: b1 :: b2 :: b3 :: rest =>
      (b0 * 16777216 + b1 * 65536 + b2 * 256 + b3) :: bytesToWords rest
  | _ => []

/-- Message-schedule extension: `acc` holds the words produced so far, most
recent first; each new word is `rotl 1 (w[i-3] ^^^ w[i-8] ^^^ w[i-14] ^^^ w[i-16])`. -/
def sha1Extend (acc : List Nat) : Nat → List Nat
  | 0 => acc
  | n + 1 =>
      let w := rotl 1 ((acc.getD 2 0) ^^^ (acc.getD 7 0) ^^^
                       (acc.getD 13 0) ^^^ (acc.getD 15 0))
      sha1Extend (w :: acc) n

/-- Round function and constant for round `i` (0-based). -/
def sha1FK (i b c d : Nat) : Nat × Nat :=
  if i < 20 then ((b &&& c) ||| ((b ^^^ 4294967295) &&& d), 1518500249)
  else if i < 40 then (b ^^^ c ^^^ d, 1859775393)
  else if i < 60 then ((b &&& c) ||| (b &&& d) ||| (c &&& d), 2400959708)
  else (b ^^^ c ^^^ d, 3395469782)

/-- The 80 compression rounds, consuming `(round index, schedule word)` pairs. -/
def sha1Rounds : List (Nat × Nat) → Nat × Nat × Nat × Nat × Nat →
    Nat × Nat × Nat × Nat × Nat
  | [], st => st
  | (i, w) :: rest, (a, b, c, d, e) =>
      let fk := sha1FK i b c d
      let temp := w32 (rotl 5 a + fk.1 + e + fk.2 + w)
      sha1Rounds rest (temp, a, rotl 30 b, c, d)

/-- Process one 64-byte chunk, updating the five-word state. -/
def sha1Block (h : Nat × Nat × Nat × Nat × Nat) (chunk : List Nat) :
    Nat × Nat × Nat × Nat × Nat :=
  let ws16 := bytesToWords chunk
  let wsAll := (sha1Extend ws16.reverse 64).reverse
  let st := sha1Rounds ((List.range 80).zip wsAll) h
  (w32 (h.1 + st.1), w32 (h.2.1 + st.2.1), w32 (h.2.2.1 + st.2.2.1),
   w32 (h.2.2.2.1 + st.2.2.2.1), w32 (h.2.2.2.2 + st.2.2.2.2))

/-- SHA-1 initial state. -/
def sha1Init : Nat × Nat × Nat × Nat × Nat :=
  (1732584193, 4023233417, 2562383102, 271733878, 3285377520)

/-- SHA-1 digest of a byte list, interpreted as a big (160-bit) unsigned
integer — exactly `int(hashlib.sha1(bytes).hexdigest(), 16)`. -/
def sha1Nat (msg : List Nat) : Nat :=
  let st := (chunks64 (sha1Pad msg)).foldl sha1Block sha1Init
  (((st.1 * 4294967296 + st.2.1) * 4294967296 + st.2.2.1) * 4294967296 +
      st.2.2.2.1) * 4294967296 + st.2.2.2.2

/-! ## UTF-8 encoding (`token.encode("utf-8")`) -/

/-- UTF-8 encoding of a single code point. -/
def utf8Char (c : Nat) : List Nat :=
  if c < 128 then [c]
  else if c < 2048 then [192 ||| (c >>> 6), 128 ||| (c &&& 63)]
  else if c < 65536 then
    [224 ||| (c >>> 12), 128 ||| ((c >>> 6) &&& 63), 128 ||| (c &&& 63)]
  else
    [240 ||| (c >>> 18), 128 ||| ((c >>> 12) &&& 63),
     128 ||| ((c >>> 6) &&& 63), 128 ||| (c &&& 63)]

/-- UTF-8 encoding of a string as a byte list. -/
def utf8Encode (s : String) : List Nat :=
  (s.data.map (fun c => utf8Char c.toNat)).flatten

/-! ## Identity resolution

`ListRecommendations` computes
`user_id = 1 + int(hashlib.sha1(request.user_id.encode("utf-8")).hexdigest(), 16) % train_users`
(Python precedence: `%` binds tighter than `+`).  `train_users` is the
dataset-dependent universe size `N`, a parameter here. -/

/-- The caller-token-to-user mapping performed inline in `ListRecommendations`. -/
def resolveUser (token : String) (train_users : Nat) : Nat :=
  1 + sha1Nat (utf8Encode token) % train_users

/-! ## The gRPC data model used by the service -/

/-- `ListRecommendationsRequest { user_id: string, product_ids: repeated string }`. -/
structure ListRecommendationsRequest where
  user_id : String
  product_ids : List String
deriving DecidableEq

/-- `ListRecommendationsResponse { product_ids: repeated string }`. -/
structure ListRecommendationsResponse where
  product_ids : List String
deriving DecidableEq

/-- Health statuses named by the source (`health_pb2.HealthCheckResponse.SERVING`
and `.UNIMPLEMENTED`). -/
inductive HealthStatus where
  | SERVING
  | NOT_SERVING
  | UNKNOWN
  | UNIMPLEMENTED
deriving DecidableEq

/-- `HealthCheckResponse { status }`. -/
structure HealthCheckResponse where
  status : HealthStatus
deriving DecidableEq

/-- `TOP_K = 10`, the module-level constant. -/
def TOP_K : Nat := 10

/-- The hard-coded `prod_list` built in `ListRecommendations`. -/
def prod_list : List String :=
  ["1YMWWN1N4O", "L9ECAV7KIM", "LS4PSXUNUM", "9SIQT8TOJO", "OLJCESPC7Z"]

/-! ## RecommendationService.ListRecommendations

The handler:
1. computes `user_id` by hash-bucketing `request.user_id` into `[1, train_users]`;
2. calls `compute_ranking_predictions(model, test[test.userID == user_id], ...)`
   — an external-library call, modelled as an opaque per-user prediction
   function `predict : Nat → List (String × Int)` (scored candidate items of
   the resolved user); the result is bound to `predictions` and never used;
3. returns a response whose `product_ids` is the constant `prod_list`.

`train_users` (the dataset-derived universe size) and `predict` (the trained
SVD model and held-out test split) are startup artifacts, passed as
parameters. -/

def ListRecommendations (train_users : Nat) (predict : Nat → List (String × Int))
    (request : ListRecommendationsRequest) : ListRecommendationsResponse :=
  let user_id := resolveUser request.user_id train_users
  let predictions := predict user_id
  let _ := predictions
  { product_ids := prod_list }

/-- `Check` returns SERVING unconditionally. -/
def healthCheck (_request : Unit) : HealthCheckResponse :=
  { status := HealthStatus.SERVING }

/-- `Watch` returns a response with status UNIMPLEMENTED unconditionally. -/
def healthWatch (_request : Unit) : HealthCheckResponse :=
  { status := HealthStatus.UNIMPLEMENTED }

/-! ## Spec-side ranked recommendation (for the refinement claim)

The spec (§4.2) prescribes: resolve the user, take the model's scored
candidates, fall back to the fixed list when empty, otherwise sort descending
by score with ties broken by ascending ItemId and truncate to the first
`K = TOP_K` entries.  This definition follows the spec's words, to be compared
with `ListRecommendations` above, which is translated from the source. -/

/-- Insert into a list sorted by `le`. -/
def insertBy {α : Type} (le : α → α → Bool) (x : α) : List α → List α
  | [] => [x]
  | y :: ys => if le x y then x :: y :: ys else y :: insertBy le x ys

/-- Insertion sort by `le`. -/
def sortBy {α : Type} (le : α → α → Bool) : List α → List α
  | [] => []
  | x :: xs => insertBy le x (sortBy le xs)

/-- Spec ordering: descending score, ties broken by ascending ItemId. -/
def rankLE (p q : String × Int) : Bool :=
  decide (q.2 < p.2) || (decide (p.2 = q.2) && decide (p.1 ≤ q.1))

/-- The recommendation result as the spec describes it (ranked candidates,
fallback on an empty candidate set). -/
def specRankedRecommendations (train_users : Nat)
    (predict : Nat → List (String × Int))
    (request : ListRecommendationsRequest) : List String :=
  let user := resolveUser request.user_id train_users
  let candidates := predict user
  if candidates = [] then prod_list
  else ((sortBy rankLE candidates).map Prod.fst).take TOP_K

/-! ## initStackdriverProfiling

`for retry in range(1, 4)` makes at most three attempts.  On failure the
handler logs, and since `retry < 4` always holds for `retry ∈ {1,2,3}`, it
always logs the sleep message (advertising `retry*10` seconds) and sleeps a
fixed `time.sleep(1)`; the `else` branch with the giving-up warning is
unreachable.  Every attempt's exception is caught (`except BaseException`),
so the function always returns normally.  The attempt outcome (whether
`googlecloudprofiler.start` succeeds on try `r`) is an oracle `ok`. -/

/-- Observable events of `initStackdriverProfiling`. -/
inductive ProfEvent where
  | attempt (n : Nat)
  | infoSuccess
  | infoUnable
  | infoSleepMsg (advertisedSeconds : Nat)
  | sleep (seconds : Nat)
  | warnGiveUp
deriving DecidableEq

/-- `range(1, 4)` in Python. -/
def pythonRange (a b : Nat) : List Nat :=
  (List.range (b - a)).map (fun i => a + i)

/-- The retry loop body of `initStackdriverProfiling`. -/
def profRetryLoop (ok : Nat → Bool) : List Nat → List ProfEvent
  | [] => []
  | r :: rs =>
      ProfEvent.attempt r ::
        if ok r then [ProfEvent.infoSuccess]
        else
          ProfEvent.infoUnable ::
            ((if r < 4 then [ProfEvent.infoSleepMsg (r * 10), ProfEvent.sleep 1]
              else [ProfEvent.warnGiveUp]) ++ profRetryLoop ok rs)

/-- The events `initStackdriverProfiling` produces; it always returns
normally (total function, no escaping exception). -/
def initStackdriverProfiling (ok : Nat → Bool) : List ProfEvent :=
  profRetryLoop ok (pythonRange 1 4)

/-- True on attempt events; used to count attempts. -/
def ProfEvent.isAttempt : ProfEvent → Bool
  | ProfEvent.attempt _ => true
  | _ => false

/-- True unless the event is a sleep of other than one second; `all` of this
says every backoff sleep is the fixed `time.sleep(1)`. -/
def ProfEvent.sleepIsOneSecond : ProfEvent → Bool
  | ProfEvent.sleep s => s == 1
  | _ => true

/-! ## `__main__` startup

The parts of `__main__` the claims are about: the optional profiler
subsystem (skipped when `DISABLE_PROFILER` is in the environment), then
`port = os.environ.get('PORT', "8080")`,
`catalog_addr = os.environ.get('PRODUCT_CATALOG_SERVICE_ADDR', '')`, and
`raise Exception(...)` when `catalog_addr == ""` — before the gRPC server is
created and `add_insecure_port` is ever reached.  Tracing and debugger
initialization only construct interceptors and are modelled as having no
effect on the outcome.  The environment is a partial map `env`. -/

/-- Outcome of running `__main__` up to the point of serving. -/
structure MainResult where
  profilerEvents : List ProfEvent
  boundPort : Option String
  configError : Option String
deriving DecidableEq

/-- The startup sequence of `__main__`. -/
def serverMain (env : String → Option String) (ok : Nat → Bool) : MainResult :=
  let profEvents :=
    if (env "DISABLE_PROFILER").isSome then []
    else initStackdriverProfiling ok
  let port := (env "PORT").getD "8080"
  let catalog_addr := (env "PRODUCT_CATALOG_SERVICE_ADDR").getD ""
  if catalog_addr = "" then
    { profilerEvents := profEvents
      boundPort := none
      configError := some "PRODUCT_CATALOG_SERVICE_ADDR environment variable not set" }
  else
    { profilerEvents := profEvents
      boundPort := some port
      configError := none }

/-! ## Theorems -/

set_option maxRecDepth 4000 in
/-- Sanity check of the SHA-1 embedding against the FIPS 180-1 test vector:
the digest of `"abc"` is `0xa9993e364706816aba3e25717850c26c9cd0d89d`. -/
theorem sha1_test_vector :
    sha1Nat (utf8Encode "abc") = 968236873715988614170569073515315707566766479517 := by
  decide

/-- C3: for every token and universe size `N > 0`, the resolver equals
`1 + (SHA-1 digest of the UTF-8 encoding, as a big unsigned integer) mod N`,
hence lands in `[1, N]`; it is a total function over all strings. -/
theorem resolve_formula_and_range (token : String) (N : Nat) (hN : 0 < N) :
    resolveUser token N = 1 + sha1Nat (utf8Encode token) % N ∧
    1 ≤ resolveUser token N ∧ resolveUser token N ≤ N := by
  unfold resolveUser
  have h := Nat.mod_lt (sha1Nat (utf8Encode token)) hN
  exact ⟨rfl, by omega, by omega⟩

/-- Witness for C3 at the empty-string token and `N = 5`. -/
theorem resolve_formula_and_range_witness :
    0 < 5 ∧
    (resolveUser "" 5 = 1 + sha1Nat (utf8Encode "") % 5 ∧
     1 ≤ resolveUser "" 5 ∧ resolveUser "" 5 ≤ 5) :=
  ⟨by decide, resolve_formula_and_range "" 5 (by decide)⟩

/-- C8: equal tokens resolve to equal UserIds for a given universe size. -/
theorem resolve_deterministic (s1 s2 : String) (N : Nat) (h : s1 = s2) :
    resolveUser s1 N = resolveUser s2 N := by rw [h]

/-- Witness for C8 at the token `"abc"` and `N = 5`. -/
theorem resolve_deterministic_witness :
    "abc" = "abc" ∧ resolveUser "abc" 5 = resolveUser "abc" 5 :=
  ⟨rfl, resolve_deterministic "abc" "abc" 5 rfl⟩

/-- C2: the response of `ListRecommendations` is the same constant list for
every pair of requests (and even across model/universe parameters): it does
not depend on any part of the request. -/
theorem listRecommendations_constant (N N' : Nat)
    (p p' : Nat → List (String × Int))
    (r r' : ListRecommendationsRequest) :
    ListRecommendations N p r = ListRecommendations N' p' r' ∧
    (ListRecommendations N p r).product_ids = prod_list :=
  ⟨rfl, rfl⟩

/-- C5: the returned list has no duplicate ItemIds and length at most
`TOP_K = 10`. -/
theorem listRecommendations_nodup_bounded (N : Nat)
    (p : Nat → List (String × Int)) (r : ListRecommendationsRequest) :
    (ListRecommendations N p r).product_ids.Nodup ∧
    (ListRecommendations N p r).product_ids.length ≤ TOP_K := by
  constructor
  · show prod_list.Nodup
    decide
  · show prod_list.length ≤ TOP_K
    decide

/-- C4: when the resolved user's candidate set is empty, the response is
exactly the fixed fallback list; the handler is a total function returning a
normal response, so ranking unavailability is never an error to the caller. -/
theorem fallback_on_empty_candidates (N : Nat)
    (p : Nat → List (String × Int)) (r : ListRecommendationsRequest)
    (h : p (resolveUser r.user_id N) = []) :
    (ListRecommendations N p r).product_ids = prod_list := rfl

/-- Witness for C4 with an everywhere-empty prediction function. -/
theorem fallback_on_empty_candidates_witness :
    (fun _ => ([] : List (String × Int)))
        (resolveUser (ListRecommendationsRequest.mk "" []).user_id 5) = [] ∧
    (ListRecommendations 5 (fun _ => [])
        (ListRecommendationsRequest.mk "" [])).product_ids = prod_list :=
  ⟨rfl, fallback_on_empty_candidates 5 (fun _ => [])
      (ListRecommendationsRequest.mk "" []) rfl⟩

/-- C6 counterexample: a request whose `product_ids` (the excluded set)
contains an item of the constant response still receives that item — the
excluded set is not removed from the result. -/
theorem excluded_item_still_returned :
    "1YMWWN1N4O" ∈
      (ListRecommendationsRequest.mk "" ["1YMWWN1N4O"]).product_ids ∧
    "1YMWWN1N4O" ∈
      (ListRecommendations 5 (fun _ => [])
        (ListRecommendationsRequest.mk "" ["1YMWWN1N4O"])).product_ids := by
  decide

/-- C6 (amended): the request's `product_ids` field is ignored — two requests
differing only in `product_ids` get identical responses, so items of the
excluded set are not filtered out of the result. -/
theorem product_ids_field_ignored (N : Nat)
    (p : Nat → List (String × Int)) (uid : String)
    (pids pids' : List String) :
    ListRecommendations N p (ListRecommendationsRequest.mk uid pids) =
    ListRecommendations N p (ListRecommendationsRequest.mk uid pids') := rfl

/-- C1: at a request whose resolved user has the non-empty candidate set
`[("AAA", 5)]`, the spec-side ranking pipeline produces `["AAA"]`, but the
handler discards the computed predictions and returns the constant
`prod_list` — the code diverges from the claimed ranked output. -/
theorem ranked_predictions_discarded :
    (fun _ => [("AAA", (5 : Int))]) (resolveUser "alice" 5) ≠ [] ∧
    specRankedRecommendations 5 (fun _ => [("AAA", (5 : Int))])
      (ListRecommendationsRequest.mk "alice" []) = ["AAA"] ∧
    (ListRecommendations 5 (fun _ => [("AAA", (5 : Int))])
      (ListRecommendationsRequest.mk "alice" [])).product_ids = prod_list ∧
    (ListRecommendations 5 (fun _ => [("AAA", (5 : Int))])
      (ListRecommendationsRequest.mk "alice" [])).product_ids ≠
    specRankedRecommendations 5 (fun _ => [("AAA", (5 : Int))])
      (ListRecommendationsRequest.mk "alice" []) := by
  refine ⟨by decide, by decide, rfl, by decide⟩

/-- C7: `Check` always returns SERVING and `Watch` always returns a response
with status UNIMPLEMENTED. -/
theorem check_serving_watch_unimplemented (req req' : Unit) :
    (healthCheck req).status = HealthStatus.SERVING ∧
    (healthWatch req').status = HealthStatus.UNIMPLEMENTED :=
  ⟨rfl, rfl⟩

/-- C9: when `PRODUCT_CATALOG_SERVICE_ADDR` is absent from the environment,
startup ends in a configuration error and no listener port is ever bound,
whatever the profiler attempts do. -/
theorem missing_catalog_addr_fails_before_bind (env : String → Option String)
    (ok : Nat → Bool) (h : env "PRODUCT_CATALOG_SERVICE_ADDR" = none) :
    (serverMain env ok).configError =
      some "PRODUCT_CATALOG_SERVICE_ADDR environment variable not set" ∧
    (serverMain env ok).boundPort = none := by
  simp [serverMain, h]

/-- Witness for C9 on the empty environment. -/
theorem missing_catalog_addr_fails_before_bind_witness :
    ((fun _ => (none : Option String)) "PRODUCT_CATALOG_SERVICE_ADDR" = none) ∧
    ((serverMain (fun _ => none) (fun _ => true)).configError =
        some "PRODUCT_CATALOG_SERVICE_ADDR environment variable not set" ∧
     (serverMain (fun _ => none) (fun _ => true)).boundPort = none) :=
  ⟨rfl, missing_catalog_addr_fails_before_bind (fun _ => none) (fun _ => true) rfl⟩

/-- Helper: the startup outcome (bound port and configuration error) does not
depend on the profiler attempt oracle. -/
theorem serverMain_outcome_independent_of_profiler
    (env : String → Option String) (ok ok' : Nat → Bool) :
    (serverMain env ok).boundPort = (serverMain env ok').boundPort ∧
    (serverMain env ok).configError = (serverMain env ok').configError := by
  by_cases h : ((env "PRODUCT_CATALOG_SERVICE_ADDR").getD "") = "" <;>
    simp [serverMain, h]

/-- C10: profiler initialization makes at most 3 attempts, every backoff
sleep is the fixed `time.sleep(1)`, the giving-up warning is never emitted
(it gives up silently), each failed attempt is logged, and the startup
outcome is unaffected by whether the profiler attempts succeed. -/
theorem profiler_bounded_retry_never_fatal (ok : Nat → Bool) :
    (initStackdriverProfiling ok).countP ProfEvent.isAttempt ≤ 3 ∧
    (initStackdriverProfiling ok).all ProfEvent.sleepIsOneSecond = true ∧
    ProfEvent.warnGiveUp ∉ initStackdriverProfiling ok ∧
    ((ok 1 = false ∧ ok 2 = false ∧ ok 3 = false) →
      ProfEvent.infoUnable ∈ initStackdriverProfiling ok) ∧
    (∀ env : String → Option String, ∀ ok' : Nat → Bool,
      (serverMain env ok).boundPort = (serverMain env ok').boundPort ∧
      (serverMain env ok).configError = (serverMain env ok').configError) := by
  refine ⟨?_, ?_, ?_, ?_, ?_⟩
  · cases h1 : ok 1 <;> cases h2 : ok 2 <;> cases h3 : ok 3 <;>
      simp only [initStackdriverProfiling, pythonRange, profRetryLoop,
        h1, h2, h3] <;> decide
  · cases h1 : ok 1 <;> cases h2 : ok 2 <;> cases h3 : ok 3 <;>
      simp only [initStackdriverProfiling, pythonRange, profRetryLoop,
        h1, h2, h3] <;> decide
  · cases h1 : ok 1 <;> cases h2 : ok 2 <;> cases h3 : ok 3 <;>
      simp only [initStackdriverProfiling, pythonRange, profRetryLoop,
        h1, h2, h3] <;> decide
  · intro hfail
    simp only [initStackdriverProfiling, pythonRange, profRetryLoop,
      hfail.1, hfail.2.1, hfail.2.2]
    decide
  · intro env ok'
    by_cases h : ((env "PRODUCT_CATALOG_SERVICE_ADDR").getD "") = "" <;>
      simp [serverMain, h]

/-- Witness for C10 with an always-failing profiler oracle. -/
theorem profiler_bounded_retry_never_fatal_witness :
    (initStackdriverProfiling (fun _ => false)).countP ProfEvent.isAttempt ≤ 3 ∧
    ProfEvent.infoUnable ∈ initStackdriverProfiling (fun _ => false) := by
  have h := profiler_bounded_retry_never_fatal (fun _ => false)
  exact ⟨h.1, h.2.2.2.1 ⟨rfl, rfl, rfl⟩⟩
